import Mathlib

/-!
Verification of the IoT sensor backend (`src/backend/main.py`).

Shallow embedding conventions:
* Python `float` values are modelled as `ℚ` (the claims concern ordering and
  averaging, not floating-point representation).
* `datetime` instants and `timedelta` durations are modelled as `ℚ`, measured
  in minutes; `datetime.now()` becomes an explicit `now` parameter.
* The Twilio channel sends (`send_sms_alert`, `make_voice_call`) are external
  effects; they are modelled by oracle functions `smsOk callOk : String → Bool`
  giving the boolean outcome of attempting each channel with a given message.
* The module-level mutable state (`sensor_readings`, `alert_history`,
  `last_alert_time`) becomes an explicit state record threaded through the
  handlers; the Python `dict` is an association list with first-match lookup.
-/

namespace IotAlert

/-- `SensorDataWithTimestamp` from `main.py` (the `SensorData` fields plus the
server-assigned timestamp). -/
structure Reading where
  device_id : String
  temperature : ℚ
  humidity : ℚ
  air_quality : ℚ
  air_quality_raw : ℤ
  timestamp : ℚ
deriving DecidableEq, Repr

/-- The mutable `alert_settings` dict (shape of the `AlertSettings` model). -/
structure AlertSettings where
  enabled : Bool
  alert_method : String
  temp_max : ℚ
  temp_min : ℚ
  humidity_max : ℚ
  humidity_min : ℚ
  air_quality_max : ℚ
deriving DecidableEq, Repr

/-- One entry of the transient `alerts_to_send` list built by
`check_and_send_alerts` (dict with keys sensor/type/value/threshold/message). -/
structure Alert where
  sensor : String
  type : String
  value : ℚ
  threshold : ℚ
  message : String
deriving DecidableEq, Repr

/-- The `AlertHistory` pydantic model (lines 102-109 of `main.py`). -/
structure AlertHistory where
  timestamp : ℚ
  alert_type : String
  sensor : String
  value : ℚ
  threshold : ℚ
  method : String
  status : String
deriving DecidableEq, Repr

def MAX_READINGS : ℕ := 100

def MAX_ALERTS : ℕ := 50

/-- `ALERT_COOLDOWN` minutes (default 15); `timedelta(minutes=ALERT_COOLDOWN)`
as a duration in minutes. -/
def ALERT_COOLDOWN : ℚ := 15

/-- Rendering of a number inside an f-string message.  The exact digits are
irrelevant to every claim; messages only matter as dispatch inputs. -/
def qstr (q : ℚ) : String := toString q

/-- The f-string of line 185. -/
def msgTempHigh (v th : ℚ) : String :=
  "HIGH TEMPERATURE ALERT! Current: " ++ qstr v ++ "°C, Threshold: "
    ++ qstr th ++ "°C"

/-- The f-string of line 193. -/
def msgTempLow (v th : ℚ) : String :=
  "LOW TEMPERATURE ALERT! Current: " ++ qstr v ++ "°C, Threshold: "
    ++ qstr th ++ "°C"

/-- The f-string of line 203. -/
def msgHumHigh (v th : ℚ) : String :=
  "HIGH HUMIDITY ALERT! Current: " ++ qstr v ++ "%, Threshold: "
    ++ qstr th ++ "%"

/-- The f-string of line 211. -/
def msgHumLow (v th : ℚ) : String :=
  "LOW HUMIDITY ALERT! Current: " ++ qstr v ++ "%, Threshold: "
    ++ qstr th ++ "%"

/-- The f-string of line 221. -/
def msgAirHigh (v th : ℚ) : String :=
  "POOR AIR QUALITY ALERT! Current: " ++ qstr v ++ "%, Threshold: "
    ++ qstr th ++ "%"

/-- First-match lookup in the association list modelling the
`last_alert_time : Dict[str, datetime]` dict. -/
def lookupTime : List (String × ℚ) → String → Option ℚ
  | [], _ => none
  | (k, v) :: rest, key => if k = key then some v else lookupTime rest key

/-- `list.append(x)` followed by `if len(list) > cap: list.pop(0)` — the
bounded-buffer push used for both `sensor_readings` and `alert_history`. -/
def pushEvict {α : Type} (cap : ℕ) (l : List α) (x : α) : List α :=
  let l2 := l ++ [x]
  if cap < l2.length then l2.tail else l2

/-- The candidate-building part of `check_and_send_alerts` (lines 173-222):
the enabled gate and the three metric checks, appending candidates to
`alerts_to_send` in source order. -/
def evaluate (s : AlertSettings) (r : Reading) : List Alert :=
  if s.enabled = false then []
  else
    (if r.temperature > s.temp_max then
      [{ sensor := "temperature", type := "high", value := r.temperature,
         threshold := s.temp_max,
         message := msgTempHigh r.temperature s.temp_max }]
    else if r.temperature < s.temp_min then
      [{ sensor := "temperature", type := "low", value := r.temperature,
         threshold := s.temp_min,
         message := msgTempLow r.temperature s.temp_min }]
    else [])
    ++
    (if r.humidity > s.humidity_max then
      [{ sensor := "humidity", type := "high", value := r.humidity,
         threshold := s.humidity_max,
         message := msgHumHigh r.humidity s.humidity_max }]
    else if r.humidity < s.humidity_min then
      [{ sensor := "humidity", type := "low", value := r.humidity,
         threshold := s.humidity_min,
         message := msgHumLow r.humidity s.humidity_min }]
    else [])
    ++
    (if r.air_quality > s.air_quality_max then
      [{ sensor := "air_quality", type := "high", value := r.air_quality,
         threshold := s.air_quality_max,
         message := msgAirHigh r.air_quality s.air_quality_max }]
    else [])

/-- Result of one dispatch: the overall `success` boolean, plus which channels
were actually invoked (observable side effects of lines 240-244). -/
structure DispatchResult where
  success : Bool
  smsAttempted : Bool
  callAttempted : Bool
deriving DecidableEq, Repr

/-- Lines 236-244 of `check_and_send_alerts` (also lines 378-383 of
`test_alert`): `success = False`; if the method includes sms, attempt the SMS
channel; if it includes call, attempt the voice channel and OR the outcome
with the prior success. -/
def dispatch (smsOk callOk : String → Bool) (method : String) (msg : String) :
    DispatchResult :=
  let success := false
  let smsAtt : Bool := decide (method = "sms" ∨ method = "both")
  let success := if smsAtt then smsOk msg else success
  let callAtt : Bool := decide (method = "call" ∨ method = "both")
  let success := if callAtt then callOk msg || success else success
  { success := success, smsAttempted := smsAtt, callAttempted := callAtt }

/-- The `AlertHistory` record constructed on a successful dispatch
(lines 249-257). -/
def mkRecord (now : ℚ) (method : String) (a : Alert) : AlertHistory :=
  { timestamp := now, alert_type := a.type, sensor := a.sensor,
    value := a.value, threshold := a.threshold, method := method,
    status := "sent" }

/-- The alerting part of the global state: `last_alert_time` and
`alert_history`. -/
structure AlertState where
  last_alert_time : List (String × ℚ)
  alert_history : List AlertHistory
deriving DecidableEq, Repr

/-- What happened to one candidate in the dispatch loop: suppressed by the
cooldown (`continue`), or a dispatch was attempted with the given outcome. -/
inductive Outcome where
  | suppressed : Outcome
  | dispatched : Bool → Outcome
deriving DecidableEq, Repr

/-- One iteration of the `for alert in alerts_to_send` loop
(lines 225-260): cooldown check, dispatch, and the success-only recording. -/
def processAlert (smsOk callOk : String → Bool) (method : String) (now : ℚ)
    (st : AlertState) (a : Alert) : AlertState × Outcome :=
  let key := a.sensor ++ "_" ++ a.type
  let suppress : Bool :=
    match lookupTime st.last_alert_time key with
    | some t => decide (now - t < ALERT_COOLDOWN)
    | none => false
  if suppress then (st, Outcome.suppressed)
  else
    let d := dispatch smsOk callOk method a.message
    if d.success then
      ({ last_alert_time := (key, now) :: st.last_alert_time,
         alert_history := pushEvict MAX_ALERTS st.alert_history (mkRecord now method a) },
       Outcome.dispatched true)
    else (st, Outcome.dispatched false)

/-- `check_and_send_alerts(reading)` (lines 171-260): evaluate the thresholds,
then run the dispatch loop over the candidates. -/
def check_and_send_alerts (smsOk callOk : String → Bool) (s : AlertSettings)
    (now : ℚ) (st : AlertState) (r : Reading) : AlertState :=
  (evaluate s r).foldl (fun acc a => (processAlert smsOk callOk s.alert_method now acc a).1) st

/-- The whole module-level mutable state: `sensor_readings`, `alert_history`
and `last_alert_time`. -/
structure ServerState where
  sensor_readings : List Reading
  alert_history : List AlertHistory
  last_alert_time : List (String × ℚ)
deriving DecidableEq, Repr

/-- Python slicing `l[-limit:]`: a negative start index counts from the end
and is clamped at 0; a non-negative start (which happens exactly when
`limit ≤ 0`, since `-0 == 0` in Python) is clamped at the length. -/
def pyNegSlice {α : Type} (l : List α) (limit : ℤ) : List α :=
  let n : ℤ := l.length
  let start : ℤ := -limit
  let s : ℤ := if start < 0 then max 0 (n + start) else min start n
  l.drop s.toNat

/-- The `/readings` handler `get_all(limit)` (lines 312-316):
`sensor_readings[-limit:] if sensor_readings else []`. -/
def get_all (limit : ℤ) (readings : List Reading) : List Reading :=
  if readings.isEmpty then [] else pyNegSlice readings limit

/-- Python `min(arr)` over a non-empty list (0 is a don't-care value for the
impossible empty case; `get_statistics` guards non-emptiness). -/
def listMin : List ℚ → ℚ
  | [] => 0
  | a :: rest => rest.foldl min a

/-- Python `max(arr)` over a non-empty list. -/
def listMax : List ℚ → ℚ
  | [] => 0
  | a :: rest => rest.foldl max a

/-- `round(x, 2)`: rounding to two decimal places.  Python rounds ties to
even; over `ℚ` we use Mathlib's `round` (ties up) — the claims depend only on
rounding being monotone, which holds for either tie rule. -/
def round2 (x : ℚ) : ℚ := ((round (x * 100) : ℤ) : ℚ) / 100

/-- The per-metric `{"min": ..., "avg": ..., "max": ...}` dict produced by the
inner `stats(arr)` helper of `get_statistics` (line 327-328). -/
structure Stats where
  min : ℚ
  avg : ℚ
  max : ℚ
deriving DecidableEq, Repr

/-- `stats(arr)` (line 327-328): min/avg/max each rounded to 2 places. -/
def statsOf (arr : List ℚ) : Stats :=
  { min := round2 (listMin arr),
    avg := round2 (arr.sum / arr.length),
    max := round2 (listMax arr) }

/-- The `/statistics` handler (lines 318-335): `none` models the
`{"status": "no_data"}` early return on an empty store; otherwise the three
per-metric stats over the projected columns. -/
def get_statistics (readings : List Reading) : Option (Stats × Stats × Stats) :=
  if readings.isEmpty then none
  else
    some (statsOf (readings.map Reading.temperature),
          statsOf (readings.map Reading.humidity),
          statsOf (readings.map Reading.air_quality))

/-- The `DELETE /readings` handler `clear()` (lines 398-403): empties
`sensor_readings`, reports the prior count, touches nothing else. -/
def clear (st : ServerState) : ℕ × ServerState :=
  (st.sensor_readings.length, { st with sensor_readings := [] })

/-- The `DELETE /alert-history` handler `clear_alerts()` (lines 405-411):
empties `alert_history` and `last_alert_time`, reports the prior alert
count, leaves the readings untouched. -/
def clear_alerts (st : ServerState) : ℕ × ServerState :=
  (st.alert_history.length,
   { st with alert_history := [], last_alert_time := [] })

/-- A JSON value as it arrives in the ingest payload dict.  A string carries
nothing but itself; whether `float(s)` / `int(s)` succeed on it is decided by
the numeric-literal parsers `parseF` / `parseI` passed as oracles (CPython's
string-to-number parsing is external to this model). -/
inductive PyVal where
  | vstr : String → PyVal
  | vint : ℤ → PyVal
  | vfloat : ℚ → PyVal
  | vbool : Bool → PyVal
  | vnull : PyVal
deriving DecidableEq, Repr

/-- `payload.get(key, default)` on the JSON dict (first match wins). -/
def pyGet (payload : List (String × PyVal)) (key : String) (dflt : PyVal) : PyVal :=
  match payload with
  | [] => dflt
  | (k, v) :: rest => if k = key then v else pyGet rest key dflt

/-- Python `str(v)`: total, never fails. -/
def pyStr : PyVal → String
  | PyVal.vstr s => s
  | PyVal.vint n => toString n
  | PyVal.vfloat q => toString q
  | PyVal.vbool b => if b then "True" else "False"
  | PyVal.vnull => "None"

/-- Python `float(v)`: succeeds on numbers and bools, fails on `None` and on
strings the literal parser rejects. -/
def pyFloat (parseF : String → Option ℚ) : PyVal → Option ℚ
  | PyVal.vstr s => parseF s
  | PyVal.vint n => some (n : ℚ)
  | PyVal.vfloat q => some q
  | PyVal.vbool b => some (if b then 1 else 0)
  | PyVal.vnull => none

/-- Truncation toward zero, as Python `int()` applied to a float. -/
def pyTrunc (q : ℚ) : ℤ := if 0 ≤ q then ⌊q⌋ else ⌈q⌉

/-- Python `int(v)`: succeeds on numbers (truncating floats) and bools, fails
on `None` and on strings the integer-literal parser rejects. -/
def pyInt (parseI : String → Option ℤ) : PyVal → Option ℤ
  | PyVal.vstr s => parseI s
  | PyVal.vint n => some n
  | PyVal.vfloat q => some (pyTrunc q)
  | PyVal.vbool b => some (if b then 1 else 0)
  | PyVal.vnull => none

/-- The coercion step of `receive_sensor_data` (lines 282-289): build the
timestamped reading from the payload with the source's defaults; `none` when
one of the four numeric conversions raises. -/
def tryReading (parseF : String → Option ℚ) (parseI : String → Option ℤ)
    (now : ℚ) (payload : List (String × PyVal)) : Option Reading :=
  match pyFloat parseF (pyGet payload "temperature" (PyVal.vint 0)),
        pyFloat parseF (pyGet payload "humidity" (PyVal.vint 0)),
        pyFloat parseF (pyGet payload "air_quality" (PyVal.vint 0)),
        pyInt parseI (pyGet payload "air_quality_raw" (PyVal.vint 0)) with
  | some temp, some hum, some aq, some aqr =>
      some { device_id := pyStr (pyGet payload "device_id" (PyVal.vstr "unknown")),
             temperature := temp, humidity := hum, air_quality := aq,
             air_quality_raw := aqr, timestamp := now }
  | _, _, _, _ => none

/-- The `POST /sensor-data` handler (lines 276-304).  On success: store the
reading (bounded push), run `check_and_send_alerts`, answer 200 with the
reading.  On a conversion failure the `except` branch re-raises as
`HTTPException(status_code=500, ...)` and the state is untouched. -/
def receive_sensor_data (smsOk callOk : String → Bool) (s : AlertSettings)
    (parseF : String → Option ℚ) (parseI : String → Option ℤ)
    (now : ℚ) (st : ServerState) (payload : List (String × PyVal)) :
    ServerState × Except (ℕ × String) Reading :=
  match tryReading parseF parseI now payload with
  | none => (st, Except.error (500, "could not convert payload field"))
  | some r =>
      let rs := pushEvict MAX_READINGS st.sensor_readings r
      let ast := check_and_send_alerts smsOk callOk s now
        { last_alert_time := st.last_alert_time, alert_history := st.alert_history } r
      ({ sensor_readings := rs, alert_history := ast.alert_history,
         last_alert_time := ast.last_alert_time },
       Except.ok r)

/-- A "high" candidate record, for the spec-side combinators of claim C4. -/
def mkHighAlert (sensor : String) (v mx : ℚ) (msg : String) : Alert :=
  { sensor := sensor, type := "high", value := v, threshold := mx,
    message := msg }

/-- A "low" candidate record, for the spec-side combinators of claim C4. -/
def mkLowAlert (sensor : String) (v mn : ℚ) (msg : String) : Alert :=
  { sensor := sensor, type := "low", value := v, threshold := mn,
    message := msg }

/-- Modelled from the spec (§4.3 Threshold Evaluator), for the refinement in
claim C4: the exclusive high/low check with high priority and strict
comparisons, for one metric. -/
def specHighLowCheck (sensor : String) (value mx mn : ℚ)
    (msgHigh msgLow : String) : List Alert :=
  if value > mx then [mkHighAlert sensor value mx msgHigh]
  else if value < mn then [mkLowAlert sensor value mn msgLow]
  else []

/-- Modelled from the spec (§4.3): the high-only check used for air quality. -/
def specHighOnlyCheck (sensor : String) (value mx : ℚ) (msgHigh : String) :
    List Alert :=
  if value > mx then [mkHighAlert sensor value mx msgHigh]
  else []

/-! Concrete fixtures used by the witness and counterexample theorems. -/

/-- An oracle under which every channel attempt succeeds. -/
def allOk : String → Bool := fun _ => true

/-- An oracle under which every channel attempt fails (e.g. Twilio not
configured). -/
def allFail : String → Bool := fun _ => false

/-- The default settings of `alert_settings` / `THRESHOLDS` in `main.py`. -/
def sampleSettings : AlertSettings :=
  { enabled := true, alert_method := "both", temp_max := 35, temp_min := 15,
    humidity_max := 80, humidity_min := 20, air_quality_max := 70 }

/-- A concrete over-temperature reading. -/
def sampleReading : Reading :=
  { device_id := "esp32-1", temperature := 40, humidity := 50,
    air_quality := 10, air_quality_raw := 512, timestamp := 0 }

/-- A concrete high-temperature candidate. -/
def sampleAlert : Alert :=
  { sensor := "temperature", type := "high", value := 40, threshold := 35,
    message := "m" }

/-- A fresh alert state. -/
def emptyAlertState : AlertState :=
  { last_alert_time := [], alert_history := [] }

/-- A fresh server state. -/
def emptyServerState : ServerState :=
  { sensor_readings := [], alert_history := [], last_alert_time := [] }

/-- C3: under method "both" both channels are attempted and the overall result
is the logical OR of the two channel outcomes; under "sms" the voice channel
is never invoked and the result is the SMS outcome; under "call" the SMS
channel is never invoked and the result is the call outcome. -/
theorem C3_dispatcher_or_and_channel_selection (smsOk callOk : String → Bool)
    (msg : String) :
    (dispatch smsOk callOk "both" msg).smsAttempted = true ∧
    (dispatch smsOk callOk "both" msg).callAttempted = true ∧
    (dispatch smsOk callOk "both" msg).success = (smsOk msg || callOk msg) ∧
    (dispatch smsOk callOk "sms" msg).smsAttempted = true ∧
    (dispatch smsOk callOk "sms" msg).callAttempted = false ∧
    (dispatch smsOk callOk "sms" msg).success = smsOk msg ∧
    (dispatch smsOk callOk "call" msg).smsAttempted = false ∧
    (dispatch smsOk callOk "call" msg).callAttempted = true ∧
    (dispatch smsOk callOk "call" msg).success = callOk msg := by
  simp [dispatch, Bool.or_comm]

/-- C7: `clear` empties the reading store and reports the prior count while
leaving alert history and cooldown state unchanged; `clear_alerts` empties the
alert history and the cooldown map and reports the prior alert count while
leaving the reading store unchanged. -/
theorem C7_clear_frame_conditions (st : ServerState) :
    (clear st).1 = st.sensor_readings.length ∧
    (clear st).2.sensor_readings = [] ∧
    (clear st).2.alert_history = st.alert_history ∧
    (clear st).2.last_alert_time = st.last_alert_time ∧
    (clear_alerts st).1 = st.alert_history.length ∧
    (clear_alerts st).2.alert_history = [] ∧
    (clear_alerts st).2.last_alert_time = [] ∧
    (clear_alerts st).2.sensor_readings = st.sensor_readings := by
  simp [clear, clear_alerts]

/-- C1: a candidate whose alert key has no recorded last-dispatch time is
always dispatched; a candidate presented while `now - last < ALERT_COOLDOWN`
is suppressed with no dispatch attempt and no state change; a candidate
presented once the elapsed time reaches the cooldown is dispatched again. -/
theorem C1_cooldown_gate_decisions (smsOk callOk : String → Bool)
    (method : String) (now : ℚ) (st : AlertState) (a : Alert) :
    (lookupTime st.last_alert_time (a.sensor ++ "_" ++ a.type) = none →
      (processAlert smsOk callOk method now st a).2 =
        Outcome.dispatched (dispatch smsOk callOk method a.message).success) ∧
    (∀ t, lookupTime st.last_alert_time (a.sensor ++ "_" ++ a.type) = some t →
      now - t < ALERT_COOLDOWN →
      processAlert smsOk callOk method now st a = (st, Outcome.suppressed)) ∧
    (∀ t, lookupTime st.last_alert_time (a.sensor ++ "_" ++ a.type) = some t →
      ALERT_COOLDOWN ≤ now - t →
      (processAlert smsOk callOk method now st a).2 =
        Outcome.dispatched (dispatch smsOk callOk method a.message).success) := by
  refine ⟨?_, ?_, ?_⟩
  · intro h
    by_cases hd : (dispatch smsOk callOk method a.message).success <;>
      simp [processAlert, h, hd]
  · intro t h hlt
    simp [processAlert, h, hlt]
  · intro t h hge
    by_cases hd : (dispatch smsOk callOk method a.message).success <;>
      simp [processAlert, h, not_lt.mpr hge, hd]

/-- Witness for C1 at concrete inputs: fresh key dispatches; nine minutes
after a dispatch the candidate is suppressed and the state is untouched;
fifteen minutes after, it dispatches again. -/
theorem C1_cooldown_gate_decisions_witness :
    (processAlert allOk allOk "both" 100 emptyAlertState sampleAlert).2 =
      Outcome.dispatched (dispatch allOk allOk "both" sampleAlert.message).success ∧
    processAlert allOk allOk "both" 100
      { last_alert_time := [("temperature_high", 91)], alert_history := [] }
      sampleAlert =
      ({ last_alert_time := [("temperature_high", 91)], alert_history := [] },
        Outcome.suppressed) ∧
    (processAlert allOk allOk "both" 100
      { last_alert_time := [("temperature_high", 85)], alert_history := [] }
      sampleAlert).2 =
      Outcome.dispatched (dispatch allOk allOk "both" sampleAlert.message).success := by
  refine ⟨?_, ?_, ?_⟩
  · exact (C1_cooldown_gate_decisions allOk allOk "both" 100 emptyAlertState
      sampleAlert).1 (by decide)
  · exact (C1_cooldown_gate_decisions allOk allOk "both" 100
      { last_alert_time := [("temperature_high", 91)], alert_history := [] }
      sampleAlert).2.1 91 (by decide) (by norm_num [ALERT_COOLDOWN])
  · exact (C1_cooldown_gate_decisions allOk allOk "both" 100
      { last_alert_time := [("temperature_high", 85)], alert_history := [] }
      sampleAlert).2.2 85 (by decide) (by norm_num [ALERT_COOLDOWN])

/-- C2: for a non-suppressed candidate, a successful dispatch overwrites the
cooldown entry of exactly the candidate's key with the current time and
appends exactly one "sent" history record (bounded push); a failed dispatch
leaves the state untouched, and so does a suppressed candidate. -/
theorem C2_record_only_on_success (smsOk callOk : String → Bool)
    (method : String) (now : ℚ) (st : AlertState) (a : Alert) :
    ((processAlert smsOk callOk method now st a).2 = Outcome.dispatched true →
      lookupTime (processAlert smsOk callOk method now st a).1.last_alert_time
          (a.sensor ++ "_" ++ a.type) = some now ∧
      (∀ k, k ≠ a.sensor ++ "_" ++ a.type →
        lookupTime (processAlert smsOk callOk method now st a).1.last_alert_time k =
          lookupTime st.last_alert_time k) ∧
      (processAlert smsOk callOk method now st a).1.alert_history =
        pushEvict MAX_ALERTS st.alert_history (mkRecord now method a) ∧
      (mkRecord now method a).status = "sent") ∧
    ((processAlert smsOk callOk method now st a).2 = Outcome.dispatched false →
      (processAlert smsOk callOk method now st a).1 = st) ∧
    ((processAlert smsOk callOk method now st a).2 = Outcome.suppressed →
      (processAlert smsOk callOk method now st a).1 = st) := by
  by_cases hsup : (match lookupTime st.last_alert_time (a.sensor ++ "_" ++ a.type) with
      | some t => decide (now - t < ALERT_COOLDOWN)
      | none => false) = true
  · refine ⟨?_, ?_, ?_⟩ <;> intro h <;> simp [processAlert, hsup] at h ⊢
  · by_cases hd : (dispatch smsOk callOk method a.message).success
    · refine ⟨?_, ?_, ?_⟩ <;> intro h
      · refine ⟨?_, ?_, ?_, rfl⟩
        · simp [processAlert, hsup, hd, lookupTime]
        · intro k hk
          simp [processAlert, hsup, hd, lookupTime, Ne.symm hk]
        · simp [processAlert, hsup, hd]
      · exact absurd h (by simp [processAlert, hsup, hd])
      · exact absurd h (by simp [processAlert, hsup, hd])
    · refine ⟨?_, ?_, ?_⟩ <;> intro h
      · exact absurd h (by simp [processAlert, hsup, hd])
      · simp [processAlert, hsup, hd]
      · exact absurd h (by simp [processAlert, hsup, hd])

/-- Witness for C2 at concrete inputs: with both channels succeeding the key
is stamped and one "sent" record appended; with both failing the state is
unchanged; a suppressed candidate also leaves the state unchanged. -/
theorem C2_record_only_on_success_witness :
    (lookupTime (processAlert allOk allOk "both" 100 emptyAlertState
        sampleAlert).1.last_alert_time "temperature_high" = some 100 ∧
      (processAlert allOk allOk "both" 100 emptyAlertState
          sampleAlert).1.alert_history =
        pushEvict MAX_ALERTS emptyAlertState.alert_history
          (mkRecord 100 "both" sampleAlert)) ∧
    (processAlert allFail allFail "both" 100 emptyAlertState
        sampleAlert).1 = emptyAlertState ∧
    (processAlert allOk allOk "both" 100
        { last_alert_time := [("temperature_high", 91)], alert_history := [] }
        sampleAlert).1 =
      { last_alert_time := [("temperature_high", 91)], alert_history := [] } := by
  refine ⟨?_, ?_, ?_⟩
  · have h := (C2_record_only_on_success allOk allOk "both" 100 emptyAlertState
      sampleAlert).1
      (by simp [processAlert, emptyAlertState, sampleAlert, lookupTime, dispatch, allOk])
    exact ⟨by simpa [sampleAlert] using h.1, by simpa [emptyAlertState] using h.2.2.1⟩
  · exact (C2_record_only_on_success allFail allFail "both" 100 emptyAlertState
      sampleAlert).2.1
      (by simp [processAlert, emptyAlertState, sampleAlert, lookupTime, dispatch, allFail])
  · exact (C2_record_only_on_success allOk allOk "both" 100
      { last_alert_time := [("temperature_high", 91)], alert_history := [] }
      sampleAlert).2.2
      (by simp [processAlert, sampleAlert, lookupTime, ALERT_COOLDOWN]; norm_num)

/-- C10: the alert pipeline never looks at `device_id` or `air_quality_raw`:
two readings agreeing on temperature, humidity, air quality and timestamp
drive `check_and_send_alerts` to identical final states (hence identical
candidates, cooldown updates and appended history records). -/
theorem C10_pipeline_ignores_device_identity (smsOk callOk : String → Bool)
    (s : AlertSettings) (now : ℚ) (st : AlertState) (r1 r2 : Reading)
    (ht : r1.temperature = r2.temperature) (hh : r1.humidity = r2.humidity)
    (ha : r1.air_quality = r2.air_quality) (_hts : r1.timestamp = r2.timestamp) :
    check_and_send_alerts smsOk callOk s now st r1 =
      check_and_send_alerts smsOk callOk s now st r2 := by
  have hev : evaluate s r1 = evaluate s r2 := by
    simp only [evaluate, ht, hh, ha]
  simp only [check_and_send_alerts, hev]

/-- Witness for C10: two concrete readings differing only in `device_id` and
`air_quality_raw` produce the same alerting state. -/
theorem C10_pipeline_ignores_device_identity_witness :
    check_and_send_alerts allOk allOk sampleSettings 100 emptyAlertState
      sampleReading =
      check_and_send_alerts allOk allOk sampleSettings 100 emptyAlertState
        { sampleReading with device_id := "esp32-2", air_quality_raw := 7 } := by
  exact C10_pipeline_ignores_device_identity allOk allOk sampleSettings 100
    emptyAlertState sampleReading
    { sampleReading with device_id := "esp32-2", air_quality_raw := 7 }
    rfl rfl rfl rfl

/-- The bounded-buffer push keeps the length within the capacity. -/
theorem pushEvict_length_le {α : Type} (cap : ℕ) (l : List α) (x : α)
    (h : l.length ≤ cap) : (pushEvict cap l x).length ≤ cap := by
  simp only [pushEvict]
  split
  · simpa using h
  · next hc =>
    simp only [List.length_append, List.length_singleton] at hc ⊢
    omega

/-- Appending through the bounded push keeps exactly the suffix of the last
`cap` items. -/
theorem foldl_pushEvict_eq_drop {α : Type} (cap : ℕ) (xs : List α) :
    xs.foldl (pushEvict cap) [] = xs.drop (xs.length - cap) := by
  induction xs using List.reverseRecOn with
  | nil => simp
  | append_singleton ys x ih =>
    rw [List.foldl_append, List.foldl_cons, List.foldl_nil, ih]
    by_cases h : ys.length < cap
    · have h0 : ys.length - cap = 0 := by omega
      have h1 : ys.length + 1 - cap = 0 := by omega
      simp only [h0, List.drop_zero, List.length_append, List.length_singleton, h1]
      simp only [pushEvict, List.length_append, List.length_singleton]
      rw [if_neg (by omega)]
    · have hlen : (ys.drop (ys.length - cap)).length = cap := by
        simp only [List.length_drop]; omega
      simp only [pushEvict]
      rw [if_pos (by simp [hlen])]
      by_cases hcap : cap = 0
      · subst hcap
        have hd0 : ys.drop (ys.length - 0) = [] := by
          simp [List.drop_eq_nil_iff]
        simp [hd0, List.drop_eq_nil_iff]
      · have h1 : 1 ≤ (ys.drop (ys.length - cap)).length := by rw [hlen]; omega
        rw [← List.drop_one, List.drop_append_of_le_length h1, List.drop_drop,
          List.drop_append_of_le_length (by simp [List.length_append]; omega)]
        simp only [List.length_append, List.length_singleton]
        congr 1
        congr 1
        omega

/-- C6: starting empty, a sequence of N bounded pushes leaves exactly the
last `min N cap` items in insertion order, for both the reading store
(capacity 100) and the alert history (capacity 50); the dispatch loop
preserves the alert-history bound, and a bounded push never exceeds a
capacity it already respects. -/
theorem C6_bounded_fifo_buffers :
    (∀ xs : List Reading, xs.foldl (pushEvict MAX_READINGS) [] =
        xs.drop (xs.length - MAX_READINGS) ∧
      (xs.foldl (pushEvict MAX_READINGS) []).length = min xs.length MAX_READINGS) ∧
    (∀ ys : List AlertHistory, ys.foldl (pushEvict MAX_ALERTS) [] =
        ys.drop (ys.length - MAX_ALERTS) ∧
      (ys.foldl (pushEvict MAX_ALERTS) []).length = min ys.length MAX_ALERTS) ∧
    (∀ (smsOk callOk : String → Bool) (method : String) (now : ℚ)
        (st : AlertState) (a : Alert),
      st.alert_history.length ≤ MAX_ALERTS →
      (processAlert smsOk callOk method now st a).1.alert_history.length ≤ MAX_ALERTS) ∧
    (∀ (cap : ℕ) (l : List Reading) (x : Reading), l.length ≤ cap →
      (pushEvict cap l x).length ≤ cap) := by
  refine ⟨?_, ?_, ?_, ?_⟩
  · intro xs
    refine ⟨foldl_pushEvict_eq_drop _ xs, ?_⟩
    rw [foldl_pushEvict_eq_drop]
    simp only [List.length_drop]
    omega
  · intro ys
    refine ⟨foldl_pushEvict_eq_drop _ ys, ?_⟩
    rw [foldl_pushEvict_eq_drop]
    simp only [List.length_drop]
    omega
  · intro smsOk callOk method now st a hb
    by_cases hsup : (match lookupTime st.last_alert_time (a.sensor ++ "_" ++ a.type) with
        | some t => decide (now - t < ALERT_COOLDOWN)
        | none => false) = true
    · simpa [processAlert, hsup] using hb
    · by_cases hd : (dispatch smsOk callOk method a.message).success
      · simpa [processAlert, hsup, hd] using
          pushEvict_length_le MAX_ALERTS st.alert_history (mkRecord now method a) hb
      · simpa [processAlert, hsup, hd] using hb
  · intro cap l x h
    exact pushEvict_length_le cap l x h

/-- Witness for C6: 120 pushed readings leave the last 100; the dispatch-loop
bound applied at a concrete state; a concrete bounded push. -/
theorem C6_bounded_fifo_buffers_witness :
    ((List.replicate 120 sampleReading).foldl (pushEvict MAX_READINGS) []).length =
      min (List.replicate 120 sampleReading).length MAX_READINGS ∧
    (processAlert allOk allOk "both" 100 emptyAlertState
        sampleAlert).1.alert_history.length ≤ MAX_ALERTS ∧
    (pushEvict MAX_READINGS [sampleReading] sampleReading).length ≤ MAX_READINGS := by
  refine ⟨(C6_bounded_fifo_buffers.1 (List.replicate 120 sampleReading)).2, ?_, ?_⟩
  · exact C6_bounded_fifo_buffers.2.2.1 allOk allOk "both" 100 emptyAlertState
      sampleAlert (by simp [emptyAlertState])
  · exact C6_bounded_fifo_buffers.2.2.2 MAX_READINGS [sampleReading] sampleReading
      (by simp [MAX_READINGS])

/-- C5 counterexample: with `limit = 0` and a one-element store, `get_all`
returns the whole store (one reading), not an empty sequence — `l[-0:]` is
`l[0:]` in Python — refuting "at most limit readings" and "limit = 0 returns
an empty sequence". -/
theorem C5_limit_zero_counterexample :
    get_all 0 [sampleReading] = [sampleReading] ∧
    ¬((get_all 0 [sampleReading]).length ≤ 0) := by
  constructor
  · simp [get_all, pyNegSlice, sampleReading]
  · simp [get_all, pyNegSlice, sampleReading]

/-- C5 (amended): for `limit ≥ 1`, `get_all` returns the last
`min limit size` readings as a suffix of the store (chronological order,
oldest of the selected subset first), the whole store when `limit` exceeds
the size; an empty store yields an empty sequence for every limit; but
`limit = 0` returns the entire store. -/
theorem C5_query_recent (l : List Reading) (limit : ℤ) :
    (1 ≤ limit → get_all limit l = l.drop (l.length - limit.toNat)) ∧
    (1 ≤ limit → (get_all limit l).length = min limit.toNat l.length) ∧
    (1 ≤ limit → l.length ≤ limit.toNat → get_all limit l = l) ∧
    (l = [] → get_all limit l = []) ∧
    (get_all 0 l = l) := by
  have hmain : 1 ≤ limit → get_all limit l = l.drop (l.length - limit.toNat) := by
    intro h1
    match l with
    | [] => simp [get_all]
    | y :: ys =>
      simp only [get_all, List.isEmpty_cons, Bool.false_eq_true, if_false,
        pyNegSlice]
      have hneg : -limit < 0 := by omega
      rw [if_pos hneg]
      congr 1
      omega
  refine ⟨hmain, ?_, ?_, ?_, ?_⟩
  · intro h1
    rw [hmain h1]
    simp only [List.length_drop]
    omega
  · intro h1 hle
    rw [hmain h1]
    have : l.length - limit.toNat = 0 := by omega
    simp [this]
  · intro he
    subst he
    simp [get_all]
  · match l with
    | [] => simp [get_all]
    | y :: ys =>
      simp only [get_all, List.isEmpty_cons, Bool.false_eq_true, if_false,
        pyNegSlice]
      norm_num
      rw [min_eq_left (by positivity)]
      simp

/-- Witness for C5 at concrete inputs: `limit = 2` on a three-element store
gives the last two readings; an oversized limit returns the whole store. -/
theorem C5_query_recent_witness :
    get_all 2 [sampleReading, { sampleReading with device_id := "b" },
        { sampleReading with device_id := "c" }] =
      [{ sampleReading with device_id := "b" },
       { sampleReading with device_id := "c" }] ∧
    get_all 7 [sampleReading] = [sampleReading] := by
  constructor
  · have h := (C5_query_recent [sampleReading,
      { sampleReading with device_id := "b" },
      { sampleReading with device_id := "c" }] 2).1 (by omega)
    simpa using h
  · exact (C5_query_recent [sampleReading] 7).2.2.1 (by omega) (by simp)

/-- Case analysis for membership in the spec's exclusive high/low check. -/
theorem specHighLowCheck_cases {sensor : String} {v mx mn : ℚ}
    {mh ml : String} {a : Alert}
    (ha : a ∈ specHighLowCheck sensor v mx mn mh ml) :
    (v > mx ∧ a = mkHighAlert sensor v mx mh) ∨
    (¬(v > mx) ∧ v < mn ∧ a = mkLowAlert sensor v mn ml) := by
  unfold specHighLowCheck at ha
  split_ifs at ha with h1 h2
  · simp only [List.mem_singleton] at ha
    exact Or.inl ⟨h1, ha⟩
  · simp only [List.mem_singleton] at ha
    exact Or.inr ⟨h1, h2, ha⟩
  · simp at ha

/-- Case analysis for membership in the spec's high-only check. -/
theorem specHighOnlyCheck_cases {sensor : String} {v mx : ℚ} {mh : String}
    {a : Alert} (ha : a ∈ specHighOnlyCheck sensor v mx mh) :
    v > mx ∧ a = mkHighAlert sensor v mx mh := by
  unfold specHighOnlyCheck at ha
  split_ifs at ha with h1
  · simp only [List.mem_singleton] at ha
    exact ⟨h1, ha⟩
  · simp at ha

/-- C4: with alerting disabled the evaluator yields no candidates; enabled, it
is exactly the spec's chain — exclusive strict high/low checks with high
priority for temperature and humidity, high-only for air quality, in that
fixed metric order; a temperature exactly at the maximum yields no
high-temperature candidate; a temperature strictly above it yields exactly
one temperature candidate, the high one; air-quality candidates are only ever
high. -/
theorem C4_threshold_evaluator (s : AlertSettings) (r : Reading) :
    (s.enabled = false → evaluate s r = []) ∧
    (s.enabled = true → evaluate s r =
      specHighLowCheck "temperature" r.temperature s.temp_max s.temp_min
        (msgTempHigh r.temperature s.temp_max)
        (msgTempLow r.temperature s.temp_min)
      ++ specHighLowCheck "humidity" r.humidity s.humidity_max s.humidity_min
        (msgHumHigh r.humidity s.humidity_max)
        (msgHumLow r.humidity s.humidity_min)
      ++ specHighOnlyCheck "air_quality" r.air_quality s.air_quality_max
        (msgAirHigh r.air_quality s.air_quality_max)) ∧
    (r.temperature = s.temp_max →
      ∀ a ∈ evaluate s r, ¬(a.sensor = "temperature" ∧ a.type = "high")) ∧
    (s.enabled = true → r.temperature > s.temp_max →
      (evaluate s r).filter (fun a => a.sensor == "temperature") =
        [mkHighAlert "temperature" r.temperature s.temp_max
          (msgTempHigh r.temperature s.temp_max)]) ∧
    (∀ a ∈ evaluate s r, a.sensor = "air_quality" → a.type = "high") := by
  have hsplit : s.enabled = true → evaluate s r =
      specHighLowCheck "temperature" r.temperature s.temp_max s.temp_min
        (msgTempHigh r.temperature s.temp_max)
        (msgTempLow r.temperature s.temp_min)
      ++ specHighLowCheck "humidity" r.humidity s.humidity_max s.humidity_min
        (msgHumHigh r.humidity s.humidity_max)
        (msgHumLow r.humidity s.humidity_min)
      ++ specHighOnlyCheck "air_quality" r.air_quality s.air_quality_max
        (msgAirHigh r.air_quality s.air_quality_max) := by
    intro he
    simp [evaluate, he, specHighLowCheck, specHighOnlyCheck, mkHighAlert,
      mkLowAlert]
  refine ⟨?_, hsplit, ?_, ?_, ?_⟩
  · intro he
    simp [evaluate, he]
  · intro heq a ha hc
    obtain ⟨hs, htp⟩ := hc
    by_cases he : s.enabled
    · rw [hsplit he] at ha
      rcases List.mem_append.mp ha with ha | ha
      rcases List.mem_append.mp ha with ha | ha
      · rcases specHighLowCheck_cases ha with ⟨hgt, _⟩ | ⟨_, _, hrec⟩
        · rw [heq] at hgt
          exact absurd hgt (lt_irrefl _)
        · rw [hrec] at htp
          simp [mkLowAlert] at htp
      · rcases specHighLowCheck_cases ha with ⟨_, hrec⟩ | ⟨_, _, hrec⟩ <;>
          rw [hrec] at hs
        · simp [mkHighAlert] at hs
        · simp [mkLowAlert] at hs
      · rcases specHighOnlyCheck_cases ha with ⟨_, hrec⟩
        rw [hrec] at hs
        simp [mkHighAlert] at hs
    · have hf : s.enabled = false := by simpa using he
      simp [evaluate, hf] at ha
  · intro he hgt
    rw [hsplit he]
    rw [List.filter_append, List.filter_append]
    rw [specHighLowCheck, if_pos hgt]
    have h2 : (specHighLowCheck "humidity" r.humidity s.humidity_max
        s.humidity_min (msgHumHigh r.humidity s.humidity_max)
        (msgHumLow r.humidity s.humidity_min)).filter
        (fun a => a.sensor == "temperature") = [] := by
      rw [specHighLowCheck]
      split_ifs <;> simp [mkHighAlert, mkLowAlert]
    have h3 : (specHighOnlyCheck "air_quality" r.air_quality
        s.air_quality_max (msgAirHigh r.air_quality s.air_quality_max)).filter
        (fun a => a.sensor == "temperature") = [] := by
      rw [specHighOnlyCheck]
      split_ifs <;> simp [mkHighAlert]
    rw [h2, h3]
    simp [mkHighAlert]
  · intro a ha hs
    by_cases he : s.enabled
    · rw [hsplit he] at ha
      rcases List.mem_append.mp ha with ha | ha
      rcases List.mem_append.mp ha with ha | ha
      · rcases specHighLowCheck_cases ha with ⟨_, hrec⟩ | ⟨_, _, hrec⟩ <;>
          rw [hrec] at hs
        · simp [mkHighAlert] at hs
        · simp [mkLowAlert] at hs
      · rcases specHighLowCheck_cases ha with ⟨_, hrec⟩ | ⟨_, _, hrec⟩ <;>
          rw [hrec] at hs
        · simp [mkHighAlert] at hs
        · simp [mkLowAlert] at hs
      · rcases specHighOnlyCheck_cases ha with ⟨_, hrec⟩
        rw [hrec]
        simp [mkHighAlert]
    · have hf : s.enabled = false := by simpa using he
      simp [evaluate, hf] at ha

/-- Witness for C4 at concrete inputs: the default settings with the sample
over-temperature reading produce exactly the single high-temperature
candidate chain; disabled settings produce none. -/
theorem C4_threshold_evaluator_witness :
    evaluate { sampleSettings with enabled := false } sampleReading = [] ∧
    evaluate sampleSettings sampleReading =
      specHighLowCheck "temperature" 40 35 15 (msgTempHigh 40 35)
        (msgTempLow 40 15)
      ++ specHighLowCheck "humidity" 50 80 20 (msgHumHigh 50 80)
        (msgHumLow 50 20)
      ++ specHighOnlyCheck "air_quality" 10 70 (msgAirHigh 10 70) ∧
    (evaluate sampleSettings sampleReading).filter
        (fun a => a.sensor == "temperature") =
      [mkHighAlert "temperature" 40 35 (msgTempHigh 40 35)] := by
  refine ⟨?_, ?_, ?_⟩
  · exact (C4_threshold_evaluator { sampleSettings with enabled := false }
      sampleReading).1 rfl
  · exact (C4_threshold_evaluator sampleSettings sampleReading).2.1 rfl
  · have h := (C4_threshold_evaluator sampleSettings
      sampleReading).2.2.2.1 rfl (by norm_num [sampleSettings, sampleReading])
    simpa [sampleSettings, sampleReading] using h

/-- The running minimum is bounded by its seed. -/
theorem foldl_min_le_seed (a : ℚ) (l : List ℚ) : l.foldl min a ≤ a := by
  induction l generalizing a with
  | nil => simp
  | cons x xs ih =>
    calc (x :: xs).foldl min a = xs.foldl min (min a x) := rfl
    _ ≤ min a x := ih _
    _ ≤ a := min_le_left _ _

/-- The running minimum is bounded by every member. -/
theorem foldl_min_le_mem (a x : ℚ) (l : List ℚ) (hx : x ∈ l) :
    l.foldl min a ≤ x := by
  induction l generalizing a with
  | nil => cases hx
  | cons y ys ih =>
    rcases List.mem_cons.mp hx with h | h
    · subst h
      exact le_trans (foldl_min_le_seed (min a x) ys) (min_le_right _ _)
    · exact ih (min a y) h

/-- The seed bounds the running maximum from below. -/
theorem seed_le_foldl_max (a : ℚ) (l : List ℚ) : a ≤ l.foldl max a := by
  induction l generalizing a with
  | nil => simp
  | cons x xs ih =>
    calc a ≤ max a x := le_max_left _ _
    _ ≤ xs.foldl max (max a x) := ih _
    _ = (x :: xs).foldl max a := rfl

/-- Every member bounds the running maximum from below. -/
theorem mem_le_foldl_max (a x : ℚ) (l : List ℚ) (hx : x ∈ l) :
    x ≤ l.foldl max a := by
  induction l generalizing a with
  | nil => cases hx
  | cons y ys ih =>
    rcases List.mem_cons.mp hx with h | h
    · subst h
      exact le_trans (le_max_right _ _) (seed_le_foldl_max (max a x) ys)
    · exact ih (max a y) h

/-- `min(arr)` is a lower bound of a non-empty list. -/
theorem listMin_le_mem (l : List ℚ) (x : ℚ) (hx : x ∈ l) : listMin l ≤ x := by
  match l with
  | [] => cases hx
  | a :: rest =>
    rcases List.mem_cons.mp hx with h | h
    · subst h
      exact foldl_min_le_seed x rest
    · exact foldl_min_le_mem a x rest h

/-- `max(arr)` is an upper bound of a non-empty list. -/
theorem mem_le_listMax (l : List ℚ) (x : ℚ) (hx : x ∈ l) : x ≤ listMax l := by
  match l with
  | [] => cases hx
  | a :: rest =>
    rcases List.mem_cons.mp hx with h | h
    · subst h
      exact seed_le_foldl_max x rest
    · exact mem_le_foldl_max a x rest h

/-- Rounding to two decimals is monotone. -/
theorem round2_mono {a b : ℚ} (h : a ≤ b) : round2 a ≤ round2 b := by
  unfold round2
  have hr : round (a * 100) ≤ round (b * 100) := by
    rw [round_eq, round_eq]
    exact Int.floor_mono (by linarith)
  have hc : ((round (a * 100) : ℤ) : ℚ) ≤ ((round (b * 100) : ℤ) : ℚ) :=
    Int.cast_le.mpr hr
  linarith

/-- On a non-empty column the rounded statistics satisfy min ≤ avg ≤ max. -/
theorem statsOf_ordered (arr : List ℚ) (h : arr ≠ []) :
    (statsOf arr).min ≤ (statsOf arr).avg ∧
    (statsOf arr).avg ≤ (statsOf arr).max := by
  have hlen : 0 < (arr.length : ℚ) := by
    have := List.length_pos.mpr h
    exact_mod_cast this
  have hminsum : listMin arr * arr.length ≤ arr.sum := by
    have hb := List.card_nsmul_le_sum arr (listMin arr)
      (fun x hx => listMin_le_mem arr x hx)
    rw [nsmul_eq_mul] at hb
    linarith [hb]
  have hsummax : arr.sum ≤ listMax arr * arr.length := by
    have hb := List.sum_le_card_nsmul arr (listMax arr)
      (fun x hx => mem_le_listMax arr x hx)
    rw [nsmul_eq_mul] at hb
    linarith [hb]
  have h1 : listMin arr ≤ arr.sum / arr.length := by
    rw [le_div_iff₀ hlen]
    exact hminsum
  have h2 : arr.sum / arr.length ≤ listMax arr := by
    rw [div_le_iff₀ hlen]
    exact hsummax
  exact ⟨round2_mono h1, round2_mono h2⟩

/-- C8: on an empty store the statistics query returns the structured
"no data" result (no average is computed); on a non-empty store each metric's
rounded values satisfy min ≤ avg ≤ max; and the query is a pure function of
the store, so repeated calls with no intervening appends agree. -/
theorem C8_statistics (l : List Reading) :
    (l = [] → get_statistics l = none) ∧
    (l ≠ [] → ∃ t h a, get_statistics l = some (t, h, a) ∧
      t.min ≤ t.avg ∧ t.avg ≤ t.max ∧
      h.min ≤ h.avg ∧ h.avg ≤ h.max ∧
      a.min ≤ a.avg ∧ a.avg ≤ a.max) ∧
    (get_statistics l = get_statistics l) := by
  refine ⟨?_, ?_, rfl⟩
  · intro he
    subst he
    simp [get_statistics]
  · intro hne
    have hie : l.isEmpty = false := by
      cases l with
      | nil => exact absurd rfl hne
      | cons x xs => rfl
    refine ⟨statsOf (l.map Reading.temperature),
      statsOf (l.map Reading.humidity),
      statsOf (l.map Reading.air_quality), ?_, ?_⟩
    · simp [get_statistics, hie]
    · have hm1 : l.map Reading.temperature ≠ [] := by
        simpa using hne
      have hm2 : l.map Reading.humidity ≠ [] := by
        simpa using hne
      have hm3 : l.map Reading.air_quality ≠ [] := by
        simpa using hne
      obtain ⟨a1, a2⟩ := statsOf_ordered _ hm1
      obtain ⟨b1, b2⟩ := statsOf_ordered _ hm2
      obtain ⟨c1, c2⟩ := statsOf_ordered _ hm3
      exact ⟨a1, a2, b1, b2, c1, c2⟩

/-- Witness for C8 at concrete inputs: an empty store reports no data; a
two-reading store yields ordered statistics. -/
theorem C8_statistics_witness :
    get_statistics [] = none ∧
    (∃ t h a, get_statistics [sampleReading,
        { sampleReading with temperature := 20 }] = some (t, h, a) ∧
      t.min ≤ t.avg ∧ t.avg ≤ t.max ∧
      h.min ≤ h.avg ∧ h.avg ≤ h.max ∧
      a.min ≤ a.avg ∧ a.avg ≤ a.max) := by
  constructor
  · exact (C8_statistics []).1 rfl
  · exact (C8_statistics [sampleReading,
      { sampleReading with temperature := 20 }]).2.1 (by simp)

/-- C9 counterexample: a payload whose `temperature` field is present but not
convertible (JSON `null`; `float(None)` raises) makes the handler answer
HTTP 500 — a server-side status, not the client-side failure the claim
states (no status in 400..499 is produced).  The state is indeed unchanged. -/
theorem C9_server_error_counterexample :
    (receive_sensor_data allOk allOk sampleSettings (fun _ => none)
        (fun _ => none) 5 emptyServerState
        [("temperature", PyVal.vnull)]).2 =
      Except.error (500, "could not convert payload field") ∧
    (receive_sensor_data allOk allOk sampleSettings (fun _ => none)
        (fun _ => none) 5 emptyServerState
        [("temperature", PyVal.vnull)]).1 = emptyServerState ∧
    ¬(400 ≤ 500 ∧ 500 < 500) := by
  refine ⟨?_, ?_, by decide⟩
  · simp [receive_sensor_data, tryReading, pyGet, pyFloat]
  · simp [receive_sensor_data, tryReading, pyGet, pyFloat]

/-- C9 (amended): a fully missing payload coerces to the defaulted,
`now`-timestamped reading (`device_id = "unknown"`, numerics 0) and a payload
carrying only a `device_id` likewise never fails; whenever coercion succeeds
the reading is stored (bounded push) and echoed; whenever a present field
fails its numeric conversion the handler leaves the state unchanged and
reports a structured error with HTTP status 500 (a server-side code, not a
client-side failure). -/
theorem C9_ingest_defaults_and_errors (smsOk callOk : String → Bool)
    (s : AlertSettings) (parseF : String → Option ℚ)
    (parseI : String → Option ℤ) (now : ℚ) (st : ServerState)
    (payload : List (String × PyVal)) :
    (tryReading parseF parseI now [] =
      some { device_id := "unknown", temperature := 0, humidity := 0,
             air_quality := 0, air_quality_raw := 0, timestamp := now }) ∧
    (∀ v, tryReading parseF parseI now [("device_id", v)] =
      some { device_id := pyStr v, temperature := 0, humidity := 0,
             air_quality := 0, air_quality_raw := 0, timestamp := now }) ∧
    (∀ r, tryReading parseF parseI now payload = some r →
      r.timestamp = now ∧
      (receive_sensor_data smsOk callOk s parseF parseI now st
          payload).1.sensor_readings =
        pushEvict MAX_READINGS st.sensor_readings r ∧
      (receive_sensor_data smsOk callOk s parseF parseI now st payload).2 =
        Except.ok r) ∧
    (tryReading parseF parseI now payload = none →
      receive_sensor_data smsOk callOk s parseF parseI now st payload =
        (st, Except.error (500, "could not convert payload field"))) := by
  refine ⟨?_, ?_, ?_, ?_⟩
  · simp [tryReading, pyGet, pyFloat, pyInt, pyStr]
  · intro v
    simp [tryReading, pyGet, pyFloat, pyInt, pyStr]
  · intro r hr
    have hts : r.timestamp = now := by
      unfold tryReading at hr
      split at hr
      · next h1 h2 h3 h4 =>
        simp only [Option.some_inj] at hr
        rw [← hr]
      · exact absurd hr (by simp)
    refine ⟨hts, ?_, ?_⟩
    · simp [receive_sensor_data, hr]
    · simp [receive_sensor_data, hr]
  · intro hr
    simp [receive_sensor_data, hr]

/-- Witness for C9 at concrete inputs: a numeric payload is coerced, stored
and echoed; the null-temperature payload leaves the state unchanged with the
500 error. -/
theorem C9_ingest_defaults_and_errors_witness :
    (receive_sensor_data allOk allOk sampleSettings (fun _ => none)
        (fun _ => none) 5 emptyServerState
        [("temperature", PyVal.vfloat 21)]).2 =
      Except.ok { device_id := "unknown", temperature := 21, humidity := 0,
                  air_quality := 0, air_quality_raw := 0, timestamp := 5 } ∧
    receive_sensor_data allOk allOk sampleSettings (fun _ => none)
        (fun _ => none) 5 emptyServerState [("air_quality", PyVal.vnull)] =
      (emptyServerState,
        Except.error (500, "could not convert payload field")) := by
  constructor
  · exact ((C9_ingest_defaults_and_errors allOk allOk sampleSettings
      (fun _ => none) (fun _ => none) 5 emptyServerState
      [("temperature", PyVal.vfloat 21)]).2.2.1
      { device_id := "unknown", temperature := 21, humidity := 0,
        air_quality := 0, air_quality_raw := 0, timestamp := 5 }
      (by simp [tryReading, pyGet, pyFloat, pyInt, pyStr])).2.2
  · exact (C9_ingest_defaults_and_errors allOk allOk sampleSettings
      (fun _ => none) (fun _ => none) 5 emptyServerState
      [("air_quality", PyVal.vnull)]).2.2.2
      (by simp [tryReading, pyGet, pyFloat, pyInt, pyStr])

end IotAlert
